import Mathlib

/-!
Verification of the PKCS#11 signing/verification conformance tests in
`sign.cc` (namespace `pkcs11::test`).

The tests drive an external PKCS#11 module through a function-pointer table
`g_fns`.  We embed that table as a structure of response functions
(`TokenFns`): the module is an arbitrary oracle, and each gtest test body is
embedded as a Lean function from the oracle and the fixture data to a
`TestResult` that records whether the test was reported skipped, how many
assertion failures were recorded, and the exact sequence of calls made into
the module.

Conventions of the embedding:
* machine bytes are `Nat` values (reduced `% 256` where the C code truncates);
* `CK_RV` status codes are `Nat`, with the concrete values of the PKCS#11
  constants used by `sign.cc`;
* `std::rand()` and `randmalloc` are parameters (`randVal : Nat`,
  `randmalloc : Nat → List Byte`): the tests only use them as sources of
  arbitrary data;
* gtest semantics: `EXPECT_*` records a failure and continues, `ASSERT_*`
  records a failure and returns from the test body.
-/

namespace Pkcs11Test

/-- A machine byte (`CK_BYTE`), embedded as `Nat`. -/
abbrev Byte := Nat

/-- A PKCS#11 return value (`CK_RV`), embedded as `Nat`. -/
abbrev CK_RV := Nat

/-- `CKR_OK` (value 0). -/
def CKR_OK : CK_RV := 0

/-- `CKR_FUNCTION_NOT_SUPPORTED` (value 0x54). -/
def CKR_FUNCTION_NOT_SUPPORTED : CK_RV := 0x54

/-- `CKR_MECHANISM_INVALID` (value 0x70). -/
def CKR_MECHANISM_INVALID : CK_RV := 0x70

/-- `CKR_SIGNATURE_INVALID` (value 0xC0). -/
def CKR_SIGNATURE_INVALID : CK_RV := 0xC0

/-- `CKR_SIGNATURE_LEN_RANGE` (value 0xC1). -/
def CKR_SIGNATURE_LEN_RANGE : CK_RV := 0xC1

/-- `CKR_GENERAL_ERROR` (value 0x5), used as an arbitrary non-OK status. -/
def CKR_GENERAL_ERROR : CK_RV := 0x5

/-- The key-usage attribute types requested by the tests in `sign.cc`. -/
inductive CK_ATTRIBUTE_TYPE where
  | CKA_ENCRYPT
  | CKA_DECRYPT
  | CKA_SIGN
  | CKA_SIGN_RECOVER
  | CKA_VERIFY
  | CKA_VERIFY_RECOVER
  deriving DecidableEq, Repr

export CK_ATTRIBUTE_TYPE (CKA_ENCRYPT CKA_DECRYPT CKA_SIGN CKA_SIGN_RECOVER CKA_VERIFY CKA_VERIFY_RECOVER)

/-- The mechanism types used by `sign.cc` (RSA signature variants and ECDSA). -/
inductive CK_MECHANISM_TYPE where
  | CKM_RSA_PKCS
  | CKM_MD5_RSA_PKCS
  | CKM_SHA1_RSA_PKCS
  | CKM_SHA256_RSA_PKCS
  | CKM_SHA384_RSA_PKCS
  | CKM_SHA512_RSA_PKCS
  | CKM_ECDSA
  deriving DecidableEq, Repr

export CK_MECHANISM_TYPE (CKM_RSA_PKCS CKM_MD5_RSA_PKCS CKM_SHA1_RSA_PKCS CKM_SHA256_RSA_PKCS CKM_SHA384_RSA_PKCS CKM_SHA512_RSA_PKCS CKM_ECDSA)

/-- Modelled from the spec: the `SignatureInfo` record of `kSignatureInfo`
(declared in `pkcs11test.h`, which is not under `src/`).  `sign.cc` reads two
of its fields: the mechanism type `alg` and the data-size bound `max_data`. -/
structure SignatureInfo where
  alg : CK_MECHANISM_TYPE
  max_data : Nat
  deriving DecidableEq, Repr

/-- A `CK_MECHANISM`.  In `sign.cc` every mechanism is built as
`{alg, NULL_PTR, 0}`: the parameter pointer is always NULL and the parameter
length always 0, so only the mechanism type is modelled. -/
structure CK_MECHANISM where
  mechanism : CK_MECHANISM_TYPE
  deriving DecidableEq, Repr

/-- Modelled from the spec: an `EccParams` entry of `kEccParams` (declared
outside `src/`); `sign.cc` uses only its DER-encoded curve parameters. -/
structure EccParams where
  der : List Byte
  deriving DecidableEq, Repr

/-- Modelled from the spec: the `KeyPair` / `KeyPairEC` fixture helper
(declared in `pkcs11test.h`, not under `src/`).  `sign.cc` uses
`keypair.valid()`, `keypair.public_handle()` and `keypair.private_handle()`. -/
structure KeyPair where
  valid : Bool
  public_handle : Nat
  private_handle : Nat
  deriving DecidableEq, Repr

/-- Modelled from the spec: the kind of session opened by the test base class.
All tests of `sign.cc` derive from `ROUserSessionTest` (defined in
`pkcs11test.h`, not under `src/`), which opens a read-only user session. -/
inductive SessionKind where
  | readOnlyUser
  deriving DecidableEq, Repr

/-- The session kind of the `ROUserSessionTest` base fixture. -/
def ROUserSessionTest.session : SessionKind := SessionKind.readOnlyUser

/-- The value of a hexadecimal digit character, or `none` for a non-digit. -/
def hexDigitVal (c : Char) : Option Nat :=
  if ('0' : Char) ≤ c ∧ c ≤ ('9' : Char) then some (c.toNat - ('0' : Char).toNat)
  else if ('a' : Char) ≤ c ∧ c ≤ ('f' : Char) then some (c.toNat - ('a' : Char).toNat + 10)
  else if ('A' : Char) ≤ c ∧ c ≤ ('F' : Char) then some (c.toNat - ('A' : Char).toNat + 10)
  else none

/-- `strtoul(buf, NULL, 16)` applied to the two-character buffer `buf` filled
at lines 76-77 of `sign.cc`: parse up to two leading hexadecimal digits. -/
def strtoul16buf2 (c0 c1 : Char) : Nat :=
  match hexDigitVal c0 with
  | none => 0
  | some d0 =>
    match hexDigitVal c1 with
    | none => d0
    | some d1 => 16 * d0 + d1

/-- `s.c_str()[i]`: character `i` of a C string; index `s.length` reads the
NUL terminator. -/
def charAt (s : String) (i : Nat) : Char := s.toList.getD i (Char.ofNat 0)

/-- One iteration of the loop at lines 75-79 of `sign.cc`:
`data_.get()[i] = strtoul(buf, NULL, 16)` where `buf` holds the hex digest
characters at positions `2*i` and `2*i+1` (assignment to `CK_BYTE`
truncates `% 256`). -/
def setHexByte (sha512 : String) (data : List Byte) (i : Nat) : List Byte :=
  data.set i (strtoul16buf2 (charAt sha512 (2 * i)) (charAt sha512 (2 * i + 1)) % 256)

/-- The loop at lines 75-79 of `sign.cc`, run for `i = 0 .. n-1`. -/
def hexAssignLoop (sha512 : String) (data : List Byte) : Nat → List Byte
  | 0 => data
  | n + 1 => setHexByte sha512 (hexAssignLoop sha512 data n) n

/-- `output[0]++` at lines 138/232 of `sign.cc`: increment the first byte of
the signature buffer (a `CK_BYTE` wraps `% 256`).  When the module reported a
zero-length signature the incremented buffer byte lies outside the region the
module sees, so the empty list is returned unchanged. -/
def corruptFirst : List Byte → List Byte
  | [] => []
  | b :: rest => ((b + 1) % 256) :: rest

/-- `memcmp(a, b, n) == 0` modelled on the bytes written into the two buffers:
0 when the first `n` bytes agree, 1 otherwise.  (The test only ever compares
the result against 0.) -/
def memcmp (a b : List Byte) (n : Nat) : Nat :=
  if a.take n = b.take n then 0 else 1

/-- The function table `g_fns` of the external PKCS#11 module, embedded as an
arbitrary oracle.  Each field gives the module's response to one call made by
`sign.cc`, as a function of the arguments the test passes (the constant
session handle is omitted; handles are `Nat`).  Functions that fill an output
buffer return the status code together with the bytes they wrote (the written
length is the length of the returned list). -/
structure TokenFns where
  genKeyPair : List CK_ATTRIBUTE_TYPE → List CK_ATTRIBUTE_TYPE → KeyPair
  genKeyPairEC : List Byte → List CK_ATTRIBUTE_TYPE → List CK_ATTRIBUTE_TYPE → KeyPair
  C_SignInit : CK_MECHANISM → Nat → CK_RV
  C_Sign : List Byte → Nat → CK_RV × List Byte
  C_VerifyInit : CK_MECHANISM → Nat → CK_RV
  C_Verify : List Byte → Nat → List Byte → Nat → CK_RV
  C_SignRecoverInit : CK_MECHANISM → Nat → CK_RV
  C_SignRecover : List Byte → Nat → CK_RV × List Byte
  C_VerifyRecoverInit : CK_MECHANISM → Nat → CK_RV
  C_VerifyRecover : List Byte → Nat → CK_RV × List Byte

/-- One call made by a test into the module (or into the keypair fixture,
which wraps `C_GenerateKeyPair`).  Buffer arguments are recorded together
with the length argument passed alongside them. -/
inductive Call where
  | genKeyPair (pub priv : List CK_ATTRIBUTE_TYPE)
  | genKeyPairEC (der : List Byte) (pub priv : List CK_ATTRIBUTE_TYPE)
  | signInit (m : CK_MECHANISM) (key : Nat)
  | sign (data : List Byte) (data_len : Nat)
  | verifyInit (m : CK_MECHANISM) (key : Nat)
  | verify (data : List Byte) (data_len : Nat) (sig : List Byte) (sig_len : Nat)
  | signRecoverInit (m : CK_MECHANISM) (key : Nat)
  | signRecover (data : List Byte) (data_len : Nat)
  | verifyRecoverInit (m : CK_MECHANISM) (key : Nat)
  | verifyRecover (sig : List Byte) (sig_len : Nat)
  deriving DecidableEq, Repr

/-- `true` exactly on `C_Verify` calls. -/
def Call.isVerifyCall : Call → Bool
  | Call.verify _ _ _ _ => true
  | _ => false

/-- `true` exactly on `C_Sign` calls whose arguments are `d`, `n`. -/
def Call.isSignOn (d : List Byte) (n : Nat) : Call → Bool
  | Call.sign d2 n2 => d2 == d && n2 == n
  | _ => true

/-- `false` exactly on `C_Sign` calls whose data argument is `d`. -/
def Call.isSignNotOn (d : List Byte) : Call → Bool
  | Call.sign d2 _ => !(d2 == d)
  | _ => false

/-- The observable outcome of running one gtest test body:
whether `TEST_SKIPPED` was invoked, how many `EXPECT`/`ASSERT` failures were
recorded, and the sequence of calls made into the module.

Modelled from the spec: the gtest glue of `pkcs11test.h` (not under `src/`) —
`TEST_SKIPPED` records the test as skipped and does not itself return (every
use in `sign.cc` is followed by an explicit `return;` where a return is
intended); `EXPECT_CKR`/`EXPECT_CKR_OK`/`EXPECT_EQ` record a failure and
continue; `ASSERT_CKR_OK` records a failure and returns from the test body. -/
structure TestResult where
  skipped : Bool
  failures : Nat
  trace : List Call
  deriving DecidableEq, Repr

/-- The fields of the `SignTest` fixture (lines 39-57 of `sign.cc`). -/
structure SignTestFixture where
  session : SessionKind
  info : SignatureInfo
  public_attrs : List CK_ATTRIBUTE_TYPE
  private_attrs : List CK_ATTRIBUTE_TYPE
  datalen : Nat
  data : List Byte
  mechanism : CK_MECHANISM
  deriving Repr

/-- The `SignTest` constructor (lines 42-49 of `sign.cc`):
`info_ = kSignatureInfo[GetParam()]` is passed in as `info`;
`datalen_ = std::rand() % info_.max_data` with `randVal` for `std::rand()`;
`data_ = randmalloc(datalen_)`. -/
def SignTest.setUp (info : SignatureInfo) (randVal : Nat)
    (randmalloc : Nat → List Byte) : SignTestFixture :=
  { session := ROUserSessionTest.session
    info := info
    public_attrs := [CKA_VERIFY]
    private_attrs := [CKA_SIGN]
    datalen := randVal % info.max_data
    data := randmalloc (randVal % info.max_data)
    mechanism := ⟨info.alg⟩ }

/-- The fields of the `SignTestEC` fixture (lines 59-93 of `sign.cc`). -/
structure SignTestECFixture where
  session : SessionKind
  info : SignatureInfo
  ec_params : EccParams
  public_attrs : List CK_ATTRIBUTE_TYPE
  private_attrs : List CK_ATTRIBUTE_TYPE
  datalen : Nat
  data : List Byte
  mechanism : CK_MECHANISM
  deriving Repr

/-- The `SignTestEC` constructor (lines 62-84 of `sign.cc`).
`info` stands for `kSignatureInfo["ECDSA"]` and `ecp` for
`kEccParams[GetParam()]`.  `sha512calc` stands for `sw::sha512::calculate`
from the bundled header `sha512.hh` (repository code not under `src/`),
which returns the hex digest string of its input.  For `CKM_ECDSA` the
constructor hashes `rand_len` random bytes, sets `datalen_ = 64` and
overwrites each byte of `data_` with the value parsed from two consecutive
hex-digest characters; otherwise `data_` is the raw random data. -/
def SignTestEC.setUp (info : SignatureInfo) (ecp : EccParams) (randVal : Nat)
    (randmalloc : Nat → List Byte) (sha512calc : List Byte → String) :
    SignTestECFixture :=
  let mech : CK_MECHANISM := ⟨info.alg⟩
  let rand_len := randVal % info.max_data
  let dd : Nat × List Byte :=
    if mech.mechanism = CKM_ECDSA then
      let rand_data := randmalloc rand_len
      let sha512 := sha512calc rand_data
      (64, hexAssignLoop sha512 (randmalloc 64) 64)
    else
      (rand_len, randmalloc rand_len)
  { session := ROUserSessionTest.session
    info := info
    ec_params := ecp
    public_attrs := [CKA_VERIFY]
    private_attrs := [CKA_SIGN]
    datalen := dd.fst
    data := dd.snd
    mechanism := mech }

/-- The shared body of `SignTest.SignVerify` (lines 116-124) and
`SignTestEC.SignVerify` (lines 210-218), entered after the keypair was
checked valid: `C_SignInit` (skip on `CKR_MECHANISM_INVALID`, `ASSERT` OK),
`EXPECT_CKR_OK(C_Sign)`, `ASSERT_CKR_OK(C_VerifyInit)`,
`EXPECT_CKR_OK(C_Verify)` on the same data and the produced signature. -/
def signVerifyBody (fns : TokenFns) (mech : CK_MECHANISM) (data : List Byte)
    (datalen : Nat) (keypair : KeyPair) (tr0 : List Call) : TestResult :=
  let rv := fns.C_SignInit mech keypair.private_handle
  let tr1 := tr0 ++ [Call.signInit mech keypair.private_handle]
  if rv = CKR_MECHANISM_INVALID then
    { skipped := true, failures := 0, trace := tr1 }
  else if rv ≠ CKR_OK then
    { skipped := false, failures := 1, trace := tr1 }
  else
    let sr := fns.C_Sign data datalen
    let signFail := if sr.fst = CKR_OK then 0 else 1
    let tr2 := tr1 ++ [Call.sign data datalen]
    let vrv := fns.C_VerifyInit mech keypair.public_handle
    let tr3 := tr2 ++ [Call.verifyInit mech keypair.public_handle]
    if vrv ≠ CKR_OK then
      { skipped := false, failures := signFail + 1, trace := tr3 }
    else
      let verv := fns.C_Verify data datalen sr.snd sr.snd.length
      let tr4 := tr3 ++ [Call.verify data datalen sr.snd sr.snd.length]
      { skipped := false
        failures := signFail + (if verv = CKR_OK then 0 else 1)
        trace := tr4 }

/-- The shared body of `SignTest.SignFailVerifyWrong` (lines 130-142) and
`SignTestEC.SignFailVerifyWrong` (lines 224-236): as `signVerifyBody`, but
the first signature byte is incremented before verification and the test
expects exactly `CKR_SIGNATURE_INVALID` from `C_Verify`. -/
def signFailVerifyWrongBody (fns : TokenFns) (mech : CK_MECHANISM)
    (data : List Byte) (datalen : Nat) (keypair : KeyPair) (tr0 : List Call) :
    TestResult :=
  let rv := fns.C_SignInit mech keypair.private_handle
  let tr1 := tr0 ++ [Call.signInit mech keypair.private_handle]
  if rv = CKR_MECHANISM_INVALID then
    { skipped := true, failures := 0, trace := tr1 }
  else if rv ≠ CKR_OK then
    { skipped := false, failures := 1, trace := tr1 }
  else
    let sr := fns.C_Sign data datalen
    let signFail := if sr.fst = CKR_OK then 0 else 1
    let tr2 := tr1 ++ [Call.sign data datalen]
    let sigC := corruptFirst sr.snd
    let vrv := fns.C_VerifyInit mech keypair.public_handle
    let tr3 := tr2 ++ [Call.verifyInit mech keypair.public_handle]
    if vrv ≠ CKR_OK then
      { skipped := false, failures := signFail + 1, trace := tr3 }
    else
      let verv := fns.C_Verify data datalen sigC sr.snd.length
      let tr4 := tr3 ++ [Call.verify data datalen sigC sr.snd.length]
      { skipped := false
        failures := signFail + (if verv = CKR_SIGNATURE_INVALID then 0 else 1)
        trace := tr4 }

/-- The shared body of `SignTest.SignFailVerifyShort` (lines 148-157) and
`SignTestEC.SignFailVerifyShort` (lines 242-251): as `signVerifyBody`, but
`C_Verify` is called with the intact signature buffer and a declared length
of 4, and the test expects exactly `CKR_SIGNATURE_LEN_RANGE`. -/
def signFailVerifyShortBody (fns : TokenFns) (mech : CK_MECHANISM)
    (data : List Byte) (datalen : Nat) (keypair : KeyPair) (tr0 : List Call) :
    TestResult :=
  let rv := fns.C_SignInit mech keypair.private_handle
  let tr1 := tr0 ++ [Call.signInit mech keypair.private_handle]
  if rv = CKR_MECHANISM_INVALID then
    { skipped := true, failures := 0, trace := tr1 }
  else if rv ≠ CKR_OK then
    { skipped := false, failures := 1, trace := tr1 }
  else
    let sr := fns.C_Sign data datalen
    let signFail := if sr.fst = CKR_OK then 0 else 1
    let tr2 := tr1 ++ [Call.sign data datalen]
    let vrv := fns.C_VerifyInit mech keypair.public_handle
    let tr3 := tr2 ++ [Call.verifyInit mech keypair.public_handle]
    if vrv ≠ CKR_OK then
      { skipped := false, failures := signFail + 1, trace := tr3 }
    else
      let verv := fns.C_Verify data datalen sr.snd 4
      let tr4 := tr3 ++ [Call.verify data datalen sr.snd 4]
      { skipped := false
        failures := signFail + (if verv = CKR_SIGNATURE_LEN_RANGE then 0 else 1)
        trace := tr4 }

/-- `TEST_P(SignTest, SignVerify)` (lines 113-125): generate a keypair with
the fixture's attribute lists, skip if it is invalid, then run the
sign/verify body. -/
def runSignVerify (fns : TokenFns) (f : SignTestFixture) : TestResult :=
  let keypair := fns.genKeyPair f.public_attrs f.private_attrs
  let tr0 := [Call.genKeyPair f.public_attrs f.private_attrs]
  if !keypair.valid then
    { skipped := true, failures := 0, trace := tr0 }
  else
    signVerifyBody fns f.mechanism f.data f.datalen keypair tr0

/-- `TEST_P(SignTest, SignFailVerifyWrong)` (lines 127-143). -/
def runSignFailVerifyWrong (fns : TokenFns) (f : SignTestFixture) : TestResult :=
  let keypair := fns.genKeyPair f.public_attrs f.private_attrs
  let tr0 := [Call.genKeyPair f.public_attrs f.private_attrs]
  if !keypair.valid then
    { skipped := true, failures := 0, trace := tr0 }
  else
    signFailVerifyWrongBody fns f.mechanism f.data f.datalen keypair tr0

/-- `TEST_P(SignTest, SignFailVerifyShort)` (lines 145-158). -/
def runSignFailVerifyShort (fns : TokenFns) (f : SignTestFixture) : TestResult :=
  let keypair := fns.genKeyPair f.public_attrs f.private_attrs
  let tr0 := [Call.genKeyPair f.public_attrs f.private_attrs]
  if !keypair.valid then
    { skipped := true, failures := 0, trace := tr0 }
  else
    signFailVerifyShortBody fns f.mechanism f.data f.datalen keypair tr0

/-- `TEST_P(SignTestEC, SignVerify)` (lines 207-219): as `runSignVerify`, but
the keypair is generated by `KeyPairEC` from the fixture's DER curve
parameters. -/
def runSignVerifyEC (fns : TokenFns) (f : SignTestECFixture) : TestResult :=
  let keypair := fns.genKeyPairEC f.ec_params.der f.public_attrs f.private_attrs
  let tr0 := [Call.genKeyPairEC f.ec_params.der f.public_attrs f.private_attrs]
  if !keypair.valid then
    { skipped := true, failures := 0, trace := tr0 }
  else
    signVerifyBody fns f.mechanism f.data f.datalen keypair tr0

/-- `TEST_P(SignTestEC, SignFailVerifyWrong)` (lines 221-237). -/
def runSignFailVerifyWrongEC (fns : TokenFns) (f : SignTestECFixture) : TestResult :=
  let keypair := fns.genKeyPairEC f.ec_params.der f.public_attrs f.private_attrs
  let tr0 := [Call.genKeyPairEC f.ec_params.der f.public_attrs f.private_attrs]
  if !keypair.valid then
    { skipped := true, failures := 0, trace := tr0 }
  else
    signFailVerifyWrongBody fns f.mechanism f.data f.datalen keypair tr0

/-- `TEST_P(SignTestEC, SignFailVerifyShort)` (lines 239-252). -/
def runSignFailVerifyShortEC (fns : TokenFns) (f : SignTestECFixture) : TestResult :=
  let keypair := fns.genKeyPairEC f.ec_params.der f.public_attrs f.private_attrs
  let tr0 := [Call.genKeyPairEC f.ec_params.der f.public_attrs f.private_attrs]
  if !keypair.valid then
    { skipped := true, failures := 0, trace := tr0 }
  else
    signFailVerifyShortBody fns f.mechanism f.data f.datalen keypair tr0

/-- `TEST_F(ROUserSessionTest, SignVerifyRecover)` (lines 160-197).
Note that on an invalid keypair this test reports `TEST_SKIPPED` but — unlike
every other skip site in `sign.cc` — does not return: execution continues
into `C_SignRecoverInit`.  `C_SignRecoverInit` skips (with return) on
`CKR_FUNCTION_NOT_SUPPORTED` and on `CKR_MECHANISM_INVALID`, then
`ASSERT_CKR_OK(rv)`; then `EXPECT_CKR_OK(C_SignRecover)`,
`ASSERT_CKR_OK(C_VerifyRecoverInit)`, `ASSERT_CKR_OK(C_VerifyRecover)`,
`EXPECT_EQ(datalen, recovered_len)` and
`EXPECT_EQ(0, memcmp(data, recovered, datalen))`. -/
def runSignVerifyRecover (fns : TokenFns) (randmalloc : Nat → List Byte) :
    TestResult :=
  let public_attrs := [CKA_VERIFY_RECOVER, CKA_ENCRYPT]
  let private_attrs := [CKA_SIGN_RECOVER, CKA_DECRYPT]
  let keypair := fns.genKeyPair public_attrs private_attrs
  let tr0 := [Call.genKeyPair public_attrs private_attrs]
  let skipped := !keypair.valid
  let datalen := 64
  let data := randmalloc datalen
  let mech : CK_MECHANISM := ⟨CKM_RSA_PKCS⟩
  let rv := fns.C_SignRecoverInit mech keypair.private_handle
  let tr1 := tr0 ++ [Call.signRecoverInit mech keypair.private_handle]
  if rv = CKR_FUNCTION_NOT_SUPPORTED then
    { skipped := true, failures := 0, trace := tr1 }
  else if rv = CKR_MECHANISM_INVALID then
    { skipped := true, failures := 0, trace := tr1 }
  else if rv ≠ CKR_OK then
    { skipped := skipped, failures := 1, trace := tr1 }
  else
    let sr := fns.C_SignRecover data datalen
    let signFail := if sr.fst = CKR_OK then 0 else 1
    let tr2 := tr1 ++ [Call.signRecover data datalen]
    let vrv := fns.C_VerifyRecoverInit mech keypair.public_handle
    let tr3 := tr2 ++ [Call.verifyRecoverInit mech keypair.public_handle]
    if vrv ≠ CKR_OK then
      { skipped := skipped, failures := signFail + 1, trace := tr3 }
    else
      let rr := fns.C_VerifyRecover sr.snd sr.snd.length
      let tr4 := tr3 ++ [Call.verifyRecover sr.snd sr.snd.length]
      if rr.fst ≠ CKR_OK then
        { skipped := skipped, failures := signFail + 1, trace := tr4 }
      else
        let lenFail := if datalen = rr.snd.length then 0 else 1
        let cmpFail := if memcmp data rr.snd datalen = 0 then 0 else 1
        { skipped := skipped
          failures := signFail + lenFail + cmpFail
          trace := tr4 }

/-! ### Helper lemmas -/

theorem charToNat_le_of_le {a b : Char} (h : a ≤ b) : a.toNat ≤ b.toNat := by
  have h1 := Char.le_def.mp h
  have h2 := UInt32.le_def.mp h1
  simp only [BitVec.le_def] at h2
  simpa [Char.toNat] using h2

theorem hexDigitVal_lt16 (c : Char) (d : Nat) (h : hexDigitVal c = some d) :
    d < 16 := by
  unfold hexDigitVal at h
  split at h
  · next hc =>
    injection h with h
    have h2 := charToNat_le_of_le hc.2
    have h3 : (('9' : Char)).toNat = 57 := by decide
    have h4 : (('0' : Char)).toNat = 48 := by decide
    omega
  · split at h
    · next hc =>
      injection h with h
      have h2 := charToNat_le_of_le hc.2
      have h3 : (('f' : Char)).toNat = 102 := by decide
      have h4 : (('a' : Char)).toNat = 97 := by decide
      omega
    · split at h
      · next hc =>
        injection h with h
        have h2 := charToNat_le_of_le hc.2
        have h3 : (('F' : Char)).toNat = 70 := by decide
        have h4 : (('A' : Char)).toNat = 65 := by decide
        omega
      · cases h

theorem strtoul16buf2_lt256 (c0 c1 : Char) : strtoul16buf2 c0 c1 < 256 := by
  unfold strtoul16buf2
  cases h0 : hexDigitVal c0 with
  | none => simp
  | some d0 =>
    have hd0 := hexDigitVal_lt16 c0 d0 h0
    cases h1 : hexDigitVal c1 with
    | none => simp only []; omega
    | some d1 =>
      have hd1 := hexDigitVal_lt16 c1 d1 h1
      simp only []
      omega

theorem getD_set_self : ∀ (l : List Nat) (i v : Nat), i < l.length →
    (l.set i v).getD i 0 = v
  | [], i, _, h => absurd h (by simp)
  | _ :: _, 0, _, _ => rfl
  | _ :: t, i + 1, v, h => by
    simpa using getD_set_self t i v (by simpa using h)

theorem getD_set_of_ne : ∀ (l : List Nat) (i j v : Nat), i ≠ j →
    (l.set i v).getD j 0 = l.getD j 0
  | [], _, _, _, _ => rfl
  | _ :: _, 0, 0, _, h => absurd rfl h
  | _ :: _, 0, _ + 1, _, _ => by simp
  | _ :: _, _ + 1, 0, _, _ => by simp
  | _ :: t, i + 1, j + 1, v, h => by
    simpa using getD_set_of_ne t i j v (fun hh => h (by omega))

theorem hexAssignLoop_length (s : String) (d : List Byte) :
    ∀ n, (hexAssignLoop s d n).length = d.length
  | 0 => rfl
  | n + 1 => by
    simp [hexAssignLoop, setHexByte, List.length_set, hexAssignLoop_length s d n]

theorem hexAssignLoop_getD (s : String) (d : List Byte) :
    ∀ n i, i < n → n ≤ d.length →
    (hexAssignLoop s d n).getD i 0 =
      strtoul16buf2 (charAt s (2 * i)) (charAt s (2 * i + 1)) % 256
  | 0, i, hi, _ => absurd hi (Nat.not_lt_zero i)
  | n + 1, i, hi, hn => by
    simp only [hexAssignLoop, setHexByte]
    by_cases hin : i = n
    · subst hin
      exact getD_set_self _ _ _ (by rw [hexAssignLoop_length]; omega)
    · rw [getD_set_of_ne _ _ _ _ (fun hh => hin hh.symm)]
      exact hexAssignLoop_getD s d n i (by omega) (by omega)

theorem signVerifyBody_mech_invalid (fns : TokenFns) (m : CK_MECHANISM)
    (d : List Byte) (n : Nat) (kp : KeyPair) (tr0 : List Call)
    (h : fns.C_SignInit m kp.private_handle = CKR_MECHANISM_INVALID) :
    signVerifyBody fns m d n kp tr0 =
      { skipped := true, failures := 0
        trace := tr0 ++ [Call.signInit m kp.private_handle] } := by
  simp [signVerifyBody, h]

theorem signVerifyBody_init_fails (fns : TokenFns) (m : CK_MECHANISM)
    (d : List Byte) (n : Nat) (kp : KeyPair) (tr0 : List Call)
    (h1 : fns.C_SignInit m kp.private_handle ≠ CKR_MECHANISM_INVALID)
    (h2 : fns.C_SignInit m kp.private_handle ≠ CKR_OK) :
    signVerifyBody fns m d n kp tr0 =
      { skipped := false, failures := 1
        trace := tr0 ++ [Call.signInit m kp.private_handle] } := by
  simp [signVerifyBody, h1, h2]

theorem signVerifyBody_ok (fns : TokenFns) (m : CK_MECHANISM)
    (d : List Byte) (n : Nat) (kp : KeyPair) (tr0 : List Call)
    (h1 : fns.C_SignInit m kp.private_handle = CKR_OK)
    (h2 : fns.C_VerifyInit m kp.public_handle = CKR_OK) :
    signVerifyBody fns m d n kp tr0 =
      { skipped := false
        failures := (if (fns.C_Sign d n).fst = CKR_OK then 0 else 1) +
          (if fns.C_Verify d n (fns.C_Sign d n).snd (fns.C_Sign d n).snd.length = CKR_OK
            then 0 else 1)
        trace := tr0 ++ [Call.signInit m kp.private_handle, Call.sign d n,
          Call.verifyInit m kp.public_handle,
          Call.verify d n (fns.C_Sign d n).snd (fns.C_Sign d n).snd.length] } := by
  simp [signVerifyBody, h1, h2, CKR_OK, CKR_MECHANISM_INVALID]

theorem signFailVerifyWrongBody_mech_invalid (fns : TokenFns) (m : CK_MECHANISM)
    (d : List Byte) (n : Nat) (kp : KeyPair) (tr0 : List Call)
    (h : fns.C_SignInit m kp.private_handle = CKR_MECHANISM_INVALID) :
    signFailVerifyWrongBody fns m d n kp tr0 =
      { skipped := true, failures := 0
        trace := tr0 ++ [Call.signInit m kp.private_handle] } := by
  simp [signFailVerifyWrongBody, h]

theorem signFailVerifyWrongBody_init_fails (fns : TokenFns) (m : CK_MECHANISM)
    (d : List Byte) (n : Nat) (kp : KeyPair) (tr0 : List Call)
    (h1 : fns.C_SignInit m kp.private_handle ≠ CKR_MECHANISM_INVALID)
    (h2 : fns.C_SignInit m kp.private_handle ≠ CKR_OK) :
    signFailVerifyWrongBody fns m d n kp tr0 =
      { skipped := false, failures := 1
        trace := tr0 ++ [Call.signInit m kp.private_handle] } := by
  simp [signFailVerifyWrongBody, h1, h2]

theorem signFailVerifyWrongBody_ok (fns : TokenFns) (m : CK_MECHANISM)
    (d : List Byte) (n : Nat) (kp : KeyPair) (tr0 : List Call)
    (h1 : fns.C_SignInit m kp.private_handle = CKR_OK)
    (h2 : fns.C_VerifyInit m kp.public_handle = CKR_OK) :
    signFailVerifyWrongBody fns m d n kp tr0 =
      { skipped := false
        failures := (if (fns.C_Sign d n).fst = CKR_OK then 0 else 1) +
          (if fns.C_Verify d n (corruptFirst (fns.C_Sign d n).snd)
              (fns.C_Sign d n).snd.length = CKR_SIGNATURE_INVALID then 0 else 1)
        trace := tr0 ++ [Call.signInit m kp.private_handle, Call.sign d n,
          Call.verifyInit m kp.public_handle,
          Call.verify d n (corruptFirst (fns.C_Sign d n).snd)
            (fns.C_Sign d n).snd.length] } := by
  simp [signFailVerifyWrongBody, h1, h2, CKR_OK, CKR_MECHANISM_INVALID]

theorem signFailVerifyShortBody_mech_invalid (fns : TokenFns) (m : CK_MECHANISM)
    (d : List Byte) (n : Nat) (kp : KeyPair) (tr0 : List Call)
    (h : fns.C_SignInit m kp.private_handle = CKR_MECHANISM_INVALID) :
    signFailVerifyShortBody fns m d n kp tr0 =
      { skipped := true, failures := 0
        trace := tr0 ++ [Call.signInit m kp.private_handle] } := by
  simp [signFailVerifyShortBody, h]

theorem signFailVerifyShortBody_init_fails (fns : TokenFns) (m : CK_MECHANISM)
    (d : List Byte) (n : Nat) (kp : KeyPair) (tr0 : List Call)
    (h1 : fns.C_SignInit m kp.private_handle ≠ CKR_MECHANISM_INVALID)
    (h2 : fns.C_SignInit m kp.private_handle ≠ CKR_OK) :
    signFailVerifyShortBody fns m d n kp tr0 =
      { skipped := false, failures := 1
        trace := tr0 ++ [Call.signInit m kp.private_handle] } := by
  simp [signFailVerifyShortBody, h1, h2]

theorem signFailVerifyShortBody_ok (fns : TokenFns) (m : CK_MECHANISM)
    (d : List Byte) (n : Nat) (kp : KeyPair) (tr0 : List Call)
    (h1 : fns.C_SignInit m kp.private_handle = CKR_OK)
    (h2 : fns.C_VerifyInit m kp.public_handle = CKR_OK) :
    signFailVerifyShortBody fns m d n kp tr0 =
      { skipped := false
        failures := (if (fns.C_Sign d n).fst = CKR_OK then 0 else 1) +
          (if fns.C_Verify d n (fns.C_Sign d n).snd 4 = CKR_SIGNATURE_LEN_RANGE
            then 0 else 1)
        trace := tr0 ++ [Call.signInit m kp.private_handle, Call.sign d n,
          Call.verifyInit m kp.public_handle,
          Call.verify d n (fns.C_Sign d n).snd 4] } := by
  simp [signFailVerifyShortBody, h1, h2, CKR_OK, CKR_MECHANISM_INVALID]

theorem runSignVerify_valid (fns : TokenFns) (f : SignTestFixture)
    (h : (fns.genKeyPair f.public_attrs f.private_attrs).valid = true) :
    runSignVerify fns f =
      signVerifyBody fns f.mechanism f.data f.datalen
        (fns.genKeyPair f.public_attrs f.private_attrs)
        [Call.genKeyPair f.public_attrs f.private_attrs] := by
  simp [runSignVerify, h]

theorem runSignFailVerifyWrong_valid (fns : TokenFns) (f : SignTestFixture)
    (h : (fns.genKeyPair f.public_attrs f.private_attrs).valid = true) :
    runSignFailVerifyWrong fns f =
      signFailVerifyWrongBody fns f.mechanism f.data f.datalen
        (fns.genKeyPair f.public_attrs f.private_attrs)
        [Call.genKeyPair f.public_attrs f.private_attrs] := by
  simp [runSignFailVerifyWrong, h]

theorem runSignFailVerifyShort_valid (fns : TokenFns) (f : SignTestFixture)
    (h : (fns.genKeyPair f.public_attrs f.private_attrs).valid = true) :
    runSignFailVerifyShort fns f =
      signFailVerifyShortBody fns f.mechanism f.data f.datalen
        (fns.genKeyPair f.public_attrs f.private_attrs)
        [Call.genKeyPair f.public_attrs f.private_attrs] := by
  simp [runSignFailVerifyShort, h]

theorem runSignVerifyEC_valid (fns : TokenFns) (f : SignTestECFixture)
    (h : (fns.genKeyPairEC f.ec_params.der f.public_attrs f.private_attrs).valid = true) :
    runSignVerifyEC fns f =
      signVerifyBody fns f.mechanism f.data f.datalen
        (fns.genKeyPairEC f.ec_params.der f.public_attrs f.private_attrs)
        [Call.genKeyPairEC f.ec_params.der f.public_attrs f.private_attrs] := by
  simp [runSignVerifyEC, h]

theorem runSignFailVerifyWrongEC_valid (fns : TokenFns) (f : SignTestECFixture)
    (h : (fns.genKeyPairEC f.ec_params.der f.public_attrs f.private_attrs).valid = true) :
    runSignFailVerifyWrongEC fns f =
      signFailVerifyWrongBody fns f.mechanism f.data f.datalen
        (fns.genKeyPairEC f.ec_params.der f.public_attrs f.private_attrs)
        [Call.genKeyPairEC f.ec_params.der f.public_attrs f.private_attrs] := by
  simp [runSignFailVerifyWrongEC, h]

theorem runSignFailVerifyShortEC_valid (fns : TokenFns) (f : SignTestECFixture)
    (h : (fns.genKeyPairEC f.ec_params.der f.public_attrs f.private_attrs).valid = true) :
    runSignFailVerifyShortEC fns f =
      signFailVerifyShortBody fns f.mechanism f.data f.datalen
        (fns.genKeyPairEC f.ec_params.der f.public_attrs f.private_attrs)
        [Call.genKeyPairEC f.ec_params.der f.public_attrs f.private_attrs] := by
  simp [runSignFailVerifyShortEC, h]

theorem signVerifyBody_all_signOn (fns : TokenFns) (m : CK_MECHANISM)
    (d : List Byte) (n : Nat) (kp : KeyPair) (tr0 : List Call)
    (h : tr0.all (Call.isSignOn d n) = true) :
    (signVerifyBody fns m d n kp tr0).trace.all (Call.isSignOn d n) = true := by
  by_cases h1 : fns.C_SignInit m kp.private_handle = CKR_MECHANISM_INVALID
  · simp [signVerifyBody, h1, h, Call.isSignOn]
  · by_cases h2 : fns.C_SignInit m kp.private_handle = CKR_OK
    · by_cases h3 : fns.C_VerifyInit m kp.public_handle = CKR_OK
      · simp [signVerifyBody, h1, h2, h3, h, Call.isSignOn, CKR_OK, CKR_MECHANISM_INVALID]
      · have h3n : ¬ fns.C_VerifyInit m kp.public_handle = 0 := by simpa [CKR_OK] using h3
        simp [signVerifyBody, h1, h2, h3n, h, Call.isSignOn, CKR_OK, CKR_MECHANISM_INVALID]
    · simp [signVerifyBody, h1, h2, h, Call.isSignOn]

theorem signFailVerifyWrongBody_all_signOn (fns : TokenFns) (m : CK_MECHANISM)
    (d : List Byte) (n : Nat) (kp : KeyPair) (tr0 : List Call)
    (h : tr0.all (Call.isSignOn d n) = true) :
    (signFailVerifyWrongBody fns m d n kp tr0).trace.all (Call.isSignOn d n) = true := by
  by_cases h1 : fns.C_SignInit m kp.private_handle = CKR_MECHANISM_INVALID
  · simp [signFailVerifyWrongBody, h1, h, Call.isSignOn]
  · by_cases h2 : fns.C_SignInit m kp.private_handle = CKR_OK
    · by_cases h3 : fns.C_VerifyInit m kp.public_handle = CKR_OK
      · simp [signFailVerifyWrongBody, h1, h2, h3, h, Call.isSignOn, CKR_OK,
          CKR_MECHANISM_INVALID]
      · have h3n : ¬ fns.C_VerifyInit m kp.public_handle = 0 := by simpa [CKR_OK] using h3
        simp [signFailVerifyWrongBody, h1, h2, h3n, h, Call.isSignOn, CKR_OK,
          CKR_MECHANISM_INVALID]
    · simp [signFailVerifyWrongBody, h1, h2, h, Call.isSignOn]

theorem signFailVerifyShortBody_all_signOn (fns : TokenFns) (m : CK_MECHANISM)
    (d : List Byte) (n : Nat) (kp : KeyPair) (tr0 : List Call)
    (h : tr0.all (Call.isSignOn d n) = true) :
    (signFailVerifyShortBody fns m d n kp tr0).trace.all (Call.isSignOn d n) = true := by
  by_cases h1 : fns.C_SignInit m kp.private_handle = CKR_MECHANISM_INVALID
  · simp [signFailVerifyShortBody, h1, h, Call.isSignOn]
  · by_cases h2 : fns.C_SignInit m kp.private_handle = CKR_OK
    · by_cases h3 : fns.C_VerifyInit m kp.public_handle = CKR_OK
      · simp [signFailVerifyShortBody, h1, h2, h3, h, Call.isSignOn, CKR_OK,
          CKR_MECHANISM_INVALID]
      · have h3n : ¬ fns.C_VerifyInit m kp.public_handle = 0 := by simpa [CKR_OK] using h3
        simp [signFailVerifyShortBody, h1, h2, h3n, h, Call.isSignOn, CKR_OK,
          CKR_MECHANISM_INVALID]
    · simp [signFailVerifyShortBody, h1, h2, h, Call.isSignOn]

theorem runSignVerifyEC_all_signOn (fns : TokenFns) (f : SignTestECFixture) :
    (runSignVerifyEC fns f).trace.all (Call.isSignOn f.data f.datalen) = true := by
  by_cases h : (fns.genKeyPairEC f.ec_params.der f.public_attrs f.private_attrs).valid = true
  · rw [runSignVerifyEC_valid fns f h]
    exact signVerifyBody_all_signOn _ _ _ _ _ _ (by simp [Call.isSignOn])
  · have hv : (fns.genKeyPairEC f.ec_params.der f.public_attrs f.private_attrs).valid = false := by
      simpa using h
    simp [runSignVerifyEC, hv, Call.isSignOn]

theorem runSignFailVerifyWrongEC_all_signOn (fns : TokenFns) (f : SignTestECFixture) :
    (runSignFailVerifyWrongEC fns f).trace.all (Call.isSignOn f.data f.datalen) = true := by
  by_cases h : (fns.genKeyPairEC f.ec_params.der f.public_attrs f.private_attrs).valid = true
  · rw [runSignFailVerifyWrongEC_valid fns f h]
    exact signFailVerifyWrongBody_all_signOn _ _ _ _ _ _ (by simp [Call.isSignOn])
  · have hv : (fns.genKeyPairEC f.ec_params.der f.public_attrs f.private_attrs).valid = false := by
      simpa using h
    simp [runSignFailVerifyWrongEC, hv, Call.isSignOn]

theorem runSignFailVerifyShortEC_all_signOn (fns : TokenFns) (f : SignTestECFixture) :
    (runSignFailVerifyShortEC fns f).trace.all (Call.isSignOn f.data f.datalen) = true := by
  by_cases h : (fns.genKeyPairEC f.ec_params.der f.public_attrs f.private_attrs).valid = true
  · rw [runSignFailVerifyShortEC_valid fns f h]
    exact signFailVerifyShortBody_all_signOn _ _ _ _ _ _ (by simp [Call.isSignOn])
  · have hv : (fns.genKeyPairEC f.ec_params.der f.public_attrs f.private_attrs).valid = false := by
      simpa using h
    simp [runSignFailVerifyShortEC, hv, Call.isSignOn]

/-- The `SignTestEC` fixture fields that do not depend on the `CKM_ECDSA`
branch of the constructor. -/
theorem SignTestEC.setUp_fixed_fields (info : SignatureInfo) (ecp : EccParams)
    (randVal : Nat) (randmalloc : Nat → List Byte) (sha512calc : List Byte → String) :
    (SignTestEC.setUp info ecp randVal randmalloc sha512calc).public_attrs = [CKA_VERIFY] ∧
    (SignTestEC.setUp info ecp randVal randmalloc sha512calc).private_attrs = [CKA_SIGN] ∧
    (SignTestEC.setUp info ecp randVal randmalloc sha512calc).session = SessionKind.readOnlyUser ∧
    (SignTestEC.setUp info ecp randVal randmalloc sha512calc).mechanism = ⟨info.alg⟩ ∧
    (SignTestEC.setUp info ecp randVal randmalloc sha512calc).info = info ∧
    (SignTestEC.setUp info ecp randVal randmalloc sha512calc).ec_params = ecp := by
  simp [SignTestEC.setUp, ROUserSessionTest.session]

/-- For `CKM_ECDSA` the constructor sets `datalen_ = 64` and fills `data_`
from the hex digest of the freshly generated random message. -/
theorem SignTestEC.setUp_ecdsa (info : SignatureInfo) (ecp : EccParams)
    (randVal : Nat) (randmalloc : Nat → List Byte) (sha512calc : List Byte → String)
    (h : info.alg = CKM_ECDSA) :
    (SignTestEC.setUp info ecp randVal randmalloc sha512calc).datalen = 64 ∧
    (SignTestEC.setUp info ecp randVal randmalloc sha512calc).data =
      hexAssignLoop (sha512calc (randmalloc (randVal % info.max_data)))
        (randmalloc 64) 64 := by
  simp [SignTestEC.setUp, h]

/-! ### Concrete inputs for witnesses and counterexamples -/

/-- A deterministic stand-in for `randmalloc`: `n` zero bytes. -/
def rmZero : Nat → List Byte := fun n => List.replicate n 0

/-- A module that answers every call successfully, producing signature
`[9, 9, 9]`, rejecting any other signature as invalid, rejecting declared
length 4 as out of range, and recovering the original 64 zero bytes. -/
def okFns : TokenFns :=
  { genKeyPair := fun _ _ => ⟨true, 10, 11⟩
    genKeyPairEC := fun _ _ _ => ⟨true, 10, 11⟩
    C_SignInit := fun _ _ => CKR_OK
    C_Sign := fun _ _ => (CKR_OK, [9, 9, 9])
    C_VerifyInit := fun _ _ => CKR_OK
    C_Verify := fun _ _ sig sig_len =>
      if sig_len = 4 then CKR_SIGNATURE_LEN_RANGE
      else if sig = [9, 9, 9] then CKR_OK
      else CKR_SIGNATURE_INVALID
    C_SignRecoverInit := fun _ _ => CKR_OK
    C_SignRecover := fun _ _ => (CKR_OK, [7, 7])
    C_VerifyRecoverInit := fun _ _ => CKR_OK
    C_VerifyRecover := fun _ _ => (CKR_OK, List.replicate 64 0) }

/-- A module as `okFns` except that `C_VerifyInit` fails with
`CKR_GENERAL_ERROR`. -/
def cexVerifyInitFns : TokenFns :=
  { okFns with C_VerifyInit := fun _ _ => CKR_GENERAL_ERROR }

/-- A module as `okFns` except that `C_SignRecoverInit` returns
`CKR_FUNCTION_NOT_SUPPORTED`. -/
def cexNotSupportedFns : TokenFns :=
  { okFns with C_SignRecoverInit := fun _ _ => CKR_FUNCTION_NOT_SUPPORTED }

/-- A module whose keypair generation fails and whose `C_SignRecoverInit`
returns `CKR_GENERAL_ERROR`. -/
def badKeyFns : TokenFns :=
  { okFns with
    genKeyPair := fun _ _ => ⟨false, 0, 0⟩
    genKeyPairEC := fun _ _ _ => ⟨false, 0, 0⟩
    C_SignRecoverInit := fun _ _ => CKR_GENERAL_ERROR }

/-- A module as `okFns` except that `C_SignInit` reports
`CKR_MECHANISM_INVALID`. -/
def mechInvalidFns : TokenFns :=
  { okFns with
    C_SignInit := fun _ _ => CKR_MECHANISM_INVALID
    C_SignRecoverInit := fun _ _ => CKR_MECHANISM_INVALID }

/-- A concrete RSA-variant signature-mechanism description. -/
def rsaInfo : SignatureInfo := ⟨CKM_SHA1_RSA_PKCS, 100⟩

/-- A concrete `SignTest` fixture built from `rsaInfo`. -/
def rsaFix : SignTestFixture := SignTest.setUp rsaInfo 7 rmZero

/-- The `kSignatureInfo["ECDSA"]` description used by `SignTestEC`. -/
def ecInfo : SignatureInfo := ⟨CKM_ECDSA, 100⟩

/-- Concrete stand-in DER curve parameters. -/
def ecParamsX : EccParams := ⟨[6, 7]⟩

/-- A 128-character stand-in hex digest `"abab...ab"`. -/
def digestAB : String := ⟨List.flatten (List.replicate 64 ['a', 'b'])⟩

/-- A 128-character stand-in hex digest `"cdcd...cd"`. -/
def digestCD : String := ⟨List.flatten (List.replicate 64 ['c', 'd'])⟩

/-- A stand-in digest function returning `digestAB` for every message. -/
def calcAB : List Byte → String := fun _ => digestAB

/-- A stand-in digest function returning `digestCD` for every message. -/
def calcCD : List Byte → String := fun _ => digestCD

/-- A concrete `SignTestEC` fixture (mechanism `CKM_ECDSA`). -/
def ecFix : SignTestECFixture := SignTestEC.setUp ecInfo ecParamsX 7 rmZero calcAB

/-! ### Claims -/

/-- C1 (counterexample): as stated the claim is false: with a valid keypair
and `C_SignInit = CKR_OK` but `C_VerifyInit` failing, `ASSERT_CKR_OK` aborts
the test and `C_Verify` is never called, so the five-step sequence is not
performed. -/
theorem claim1_counterexample :
    (cexVerifyInitFns.genKeyPair rsaFix.public_attrs rsaFix.private_attrs).valid = true ∧
    cexVerifyInitFns.C_SignInit rsaFix.mechanism
      (cexVerifyInitFns.genKeyPair rsaFix.public_attrs rsaFix.private_attrs).private_handle =
      CKR_OK ∧
    (runSignVerify cexVerifyInitFns rsaFix).trace.all
      (fun c => ! c.isVerifyCall) = true := by
  decide

/-- C1 (amended): for both `SignTest.SignVerify` and `SignTestEC.SignVerify`,
when keypair generation succeeds and `C_SignInit` and `C_VerifyInit` both
return `CKR_OK`, the test performs exactly the step sequence
generate-keypair, `C_SignInit`, `C_Sign` on the fixture data, `C_VerifyInit`
with the public key, `C_Verify` on the same data and the produced signature,
and records no failure iff `C_Sign`, `C_VerifyInit` and `C_Verify` all
returned `CKR_OK`. -/
theorem claim1_sign_verify_step_sequence :
    (∀ (fns : TokenFns) (f : SignTestFixture),
      (fns.genKeyPair f.public_attrs f.private_attrs).valid = true →
      fns.C_SignInit f.mechanism
        (fns.genKeyPair f.public_attrs f.private_attrs).private_handle = CKR_OK →
      fns.C_VerifyInit f.mechanism
        (fns.genKeyPair f.public_attrs f.private_attrs).public_handle = CKR_OK →
      (runSignVerify fns f).trace =
        [Call.genKeyPair f.public_attrs f.private_attrs,
         Call.signInit f.mechanism
           (fns.genKeyPair f.public_attrs f.private_attrs).private_handle,
         Call.sign f.data f.datalen,
         Call.verifyInit f.mechanism
           (fns.genKeyPair f.public_attrs f.private_attrs).public_handle,
         Call.verify f.data f.datalen (fns.C_Sign f.data f.datalen).snd
           (fns.C_Sign f.data f.datalen).snd.length] ∧
      ((runSignVerify fns f).failures = 0 ↔
        (fns.C_Sign f.data f.datalen).fst = CKR_OK ∧
        fns.C_Verify f.data f.datalen (fns.C_Sign f.data f.datalen).snd
          (fns.C_Sign f.data f.datalen).snd.length = CKR_OK)) ∧
    (∀ (fns : TokenFns) (f : SignTestECFixture),
      (fns.genKeyPairEC f.ec_params.der f.public_attrs f.private_attrs).valid = true →
      fns.C_SignInit f.mechanism
        (fns.genKeyPairEC f.ec_params.der f.public_attrs f.private_attrs).private_handle =
        CKR_OK →
      fns.C_VerifyInit f.mechanism
        (fns.genKeyPairEC f.ec_params.der f.public_attrs f.private_attrs).public_handle =
        CKR_OK →
      (runSignVerifyEC fns f).trace =
        [Call.genKeyPairEC f.ec_params.der f.public_attrs f.private_attrs,
         Call.signInit f.mechanism
           (fns.genKeyPairEC f.ec_params.der f.public_attrs f.private_attrs).private_handle,
         Call.sign f.data f.datalen,
         Call.verifyInit f.mechanism
           (fns.genKeyPairEC f.ec_params.der f.public_attrs f.private_attrs).public_handle,
         Call.verify f.data f.datalen (fns.C_Sign f.data f.datalen).snd
           (fns.C_Sign f.data f.datalen).snd.length] ∧
      ((runSignVerifyEC fns f).failures = 0 ↔
        (fns.C_Sign f.data f.datalen).fst = CKR_OK ∧
        fns.C_Verify f.data f.datalen (fns.C_Sign f.data f.datalen).snd
          (fns.C_Sign f.data f.datalen).snd.length = CKR_OK)) := by
  constructor
  · intro fns f h1 h2 h3
    rw [runSignVerify_valid fns f h1,
      signVerifyBody_ok fns f.mechanism f.data f.datalen _ _ h2 h3]
    refine ⟨by simp, ?_⟩
    by_cases hs : (fns.C_Sign f.data f.datalen).fst = CKR_OK <;>
      by_cases hv : fns.C_Verify f.data f.datalen (fns.C_Sign f.data f.datalen).snd
        (fns.C_Sign f.data f.datalen).snd.length = CKR_OK <;>
      simp [hs, hv]
  · intro fns f h1 h2 h3
    rw [runSignVerifyEC_valid fns f h1,
      signVerifyBody_ok fns f.mechanism f.data f.datalen _ _ h2 h3]
    refine ⟨by simp, ?_⟩
    by_cases hs : (fns.C_Sign f.data f.datalen).fst = CKR_OK <;>
      by_cases hv : fns.C_Verify f.data f.datalen (fns.C_Sign f.data f.datalen).snd
        (fns.C_Sign f.data f.datalen).snd.length = CKR_OK <;>
      simp [hs, hv]

/-- C1 (witness): the amended theorem applied to a concrete module and
fixture. -/
theorem claim1_witness :
    (runSignVerify okFns rsaFix).trace =
      [Call.genKeyPair rsaFix.public_attrs rsaFix.private_attrs,
       Call.signInit rsaFix.mechanism
         (okFns.genKeyPair rsaFix.public_attrs rsaFix.private_attrs).private_handle,
       Call.sign rsaFix.data rsaFix.datalen,
       Call.verifyInit rsaFix.mechanism
         (okFns.genKeyPair rsaFix.public_attrs rsaFix.private_attrs).public_handle,
       Call.verify rsaFix.data rsaFix.datalen (okFns.C_Sign rsaFix.data rsaFix.datalen).snd
         (okFns.C_Sign rsaFix.data rsaFix.datalen).snd.length] ∧
    ((runSignVerify okFns rsaFix).failures = 0 ↔
      (okFns.C_Sign rsaFix.data rsaFix.datalen).fst = CKR_OK ∧
      okFns.C_Verify rsaFix.data rsaFix.datalen (okFns.C_Sign rsaFix.data rsaFix.datalen).snd
        (okFns.C_Sign rsaFix.data rsaFix.datalen).snd.length = CKR_OK) :=
  claim1_sign_verify_step_sequence.1 okFns rsaFix rfl rfl rfl

/-- C2: for both `SignFailVerifyWrong` tests, once a signature was produced
successfully (and the init calls succeeded), the test calls `C_Verify` on the
original data with the first-byte-incremented signature and records no
failure iff that call returns exactly `CKR_SIGNATURE_INVALID`. -/
theorem claim2_corrupted_signature_expects_invalid :
    (∀ (fns : TokenFns) (f : SignTestFixture),
      (fns.genKeyPair f.public_attrs f.private_attrs).valid = true →
      fns.C_SignInit f.mechanism
        (fns.genKeyPair f.public_attrs f.private_attrs).private_handle = CKR_OK →
      (fns.C_Sign f.data f.datalen).fst = CKR_OK →
      fns.C_VerifyInit f.mechanism
        (fns.genKeyPair f.public_attrs f.private_attrs).public_handle = CKR_OK →
      (runSignFailVerifyWrong fns f).trace =
        [Call.genKeyPair f.public_attrs f.private_attrs,
         Call.signInit f.mechanism
           (fns.genKeyPair f.public_attrs f.private_attrs).private_handle,
         Call.sign f.data f.datalen,
         Call.verifyInit f.mechanism
           (fns.genKeyPair f.public_attrs f.private_attrs).public_handle,
         Call.verify f.data f.datalen (corruptFirst (fns.C_Sign f.data f.datalen).snd)
           (fns.C_Sign f.data f.datalen).snd.length] ∧
      ((runSignFailVerifyWrong fns f).failures = 0 ↔
        fns.C_Verify f.data f.datalen (corruptFirst (fns.C_Sign f.data f.datalen).snd)
          (fns.C_Sign f.data f.datalen).snd.length = CKR_SIGNATURE_INVALID)) ∧
    (∀ (fns : TokenFns) (f : SignTestECFixture),
      (fns.genKeyPairEC f.ec_params.der f.public_attrs f.private_attrs).valid = true →
      fns.C_SignInit f.mechanism
        (fns.genKeyPairEC f.ec_params.der f.public_attrs f.private_attrs).private_handle =
        CKR_OK →
      (fns.C_Sign f.data f.datalen).fst = CKR_OK →
      fns.C_VerifyInit f.mechanism
        (fns.genKeyPairEC f.ec_params.der f.public_attrs f.private_attrs).public_handle =
        CKR_OK →
      (runSignFailVerifyWrongEC fns f).trace =
        [Call.genKeyPairEC f.ec_params.der f.public_attrs f.private_attrs,
         Call.signInit f.mechanism
           (fns.genKeyPairEC f.ec_params.der f.public_attrs f.private_attrs).private_handle,
         Call.sign f.data f.datalen,
         Call.verifyInit f.mechanism
           (fns.genKeyPairEC f.ec_params.der f.public_attrs f.private_attrs).public_handle,
         Call.verify f.data f.datalen (corruptFirst (fns.C_Sign f.data f.datalen).snd)
           (fns.C_Sign f.data f.datalen).snd.length] ∧
      ((runSignFailVerifyWrongEC fns f).failures = 0 ↔
        fns.C_Verify f.data f.datalen (corruptFirst (fns.C_Sign f.data f.datalen).snd)
          (fns.C_Sign f.data f.datalen).snd.length = CKR_SIGNATURE_INVALID)) := by
  constructor
  · intro fns f h1 h2 hs h3
    rw [runSignFailVerifyWrong_valid fns f h1,
      signFailVerifyWrongBody_ok fns f.mechanism f.data f.datalen _ _ h2 h3]
    refine ⟨by simp, ?_⟩
    by_cases hv : fns.C_Verify f.data f.datalen (corruptFirst (fns.C_Sign f.data f.datalen).snd)
        (fns.C_Sign f.data f.datalen).snd.length = CKR_SIGNATURE_INVALID <;>
      simp [hs, hv]
  · intro fns f h1 h2 hs h3
    rw [runSignFailVerifyWrongEC_valid fns f h1,
      signFailVerifyWrongBody_ok fns f.mechanism f.data f.datalen _ _ h2 h3]
    refine ⟨by simp, ?_⟩
    by_cases hv : fns.C_Verify f.data f.datalen (corruptFirst (fns.C_Sign f.data f.datalen).snd)
        (fns.C_Sign f.data f.datalen).snd.length = CKR_SIGNATURE_INVALID <;>
      simp [hs, hv]

/-- C2 (witness): the theorem applied to a concrete module and fixture. -/
theorem claim2_witness :
    (runSignFailVerifyWrong okFns rsaFix).trace =
      [Call.genKeyPair rsaFix.public_attrs rsaFix.private_attrs,
       Call.signInit rsaFix.mechanism
         (okFns.genKeyPair rsaFix.public_attrs rsaFix.private_attrs).private_handle,
       Call.sign rsaFix.data rsaFix.datalen,
       Call.verifyInit rsaFix.mechanism
         (okFns.genKeyPair rsaFix.public_attrs rsaFix.private_attrs).public_handle,
       Call.verify rsaFix.data rsaFix.datalen
         (corruptFirst (okFns.C_Sign rsaFix.data rsaFix.datalen).snd)
         (okFns.C_Sign rsaFix.data rsaFix.datalen).snd.length] ∧
    ((runSignFailVerifyWrong okFns rsaFix).failures = 0 ↔
      okFns.C_Verify rsaFix.data rsaFix.datalen
        (corruptFirst (okFns.C_Sign rsaFix.data rsaFix.datalen).snd)
        (okFns.C_Sign rsaFix.data rsaFix.datalen).snd.length = CKR_SIGNATURE_INVALID) :=
  claim2_corrupted_signature_expects_invalid.1 okFns rsaFix rfl rfl rfl rfl

/-- C3: for both `SignFailVerifyShort` tests, once a signature was produced
successfully (and the init calls succeeded), the test calls `C_Verify` with
the intact signature buffer but declared signature length 4, and records no
failure iff that call returns exactly `CKR_SIGNATURE_LEN_RANGE`. -/
theorem claim3_short_signature_expects_len_range :
    (∀ (fns : TokenFns) (f : SignTestFixture),
      (fns.genKeyPair f.public_attrs f.private_attrs).valid = true →
      fns.C_SignInit f.mechanism
        (fns.genKeyPair f.public_attrs f.private_attrs).private_handle = CKR_OK →
      (fns.C_Sign f.data f.datalen).fst = CKR_OK →
      fns.C_VerifyInit f.mechanism
        (fns.genKeyPair f.public_attrs f.private_attrs).public_handle = CKR_OK →
      (runSignFailVerifyShort fns f).trace =
        [Call.genKeyPair f.public_attrs f.private_attrs,
         Call.signInit f.mechanism
           (fns.genKeyPair f.public_attrs f.private_attrs).private_handle,
         Call.sign f.data f.datalen,
         Call.verifyInit f.mechanism
           (fns.genKeyPair f.public_attrs f.private_attrs).public_handle,
         Call.verify f.data f.datalen (fns.C_Sign f.data f.datalen).snd 4] ∧
      ((runSignFailVerifyShort fns f).failures = 0 ↔
        fns.C_Verify f.data f.datalen (fns.C_Sign f.data f.datalen).snd 4 =
          CKR_SIGNATURE_LEN_RANGE)) ∧
    (∀ (fns : TokenFns) (f : SignTestECFixture),
      (fns.genKeyPairEC f.ec_params.der f.public_attrs f.private_attrs).valid = true →
      fns.C_SignInit f.mechanism
        (fns.genKeyPairEC f.ec_params.der f.public_attrs f.private_attrs).private_handle =
        CKR_OK →
      (fns.C_Sign f.data f.datalen).fst = CKR_OK →
      fns.C_VerifyInit f.mechanism
        (fns.genKeyPairEC f.ec_params.der f.public_attrs f.private_attrs).public_handle =
        CKR_OK →
      (runSignFailVerifyShortEC fns f).trace =
        [Call.genKeyPairEC f.ec_params.der f.public_attrs f.private_attrs,
         Call.signInit f.mechanism
           (fns.genKeyPairEC f.ec_params.der f.public_attrs f.private_attrs).private_handle,
         Call.sign f.data f.datalen,
         Call.verifyInit f.mechanism
           (fns.genKeyPairEC f.ec_params.der f.public_attrs f.private_attrs).public_handle,
         Call.verify f.data f.datalen (fns.C_Sign f.data f.datalen).snd 4] ∧
      ((runSignFailVerifyShortEC fns f).failures = 0 ↔
        fns.C_Verify f.data f.datalen (fns.C_Sign f.data f.datalen).snd 4 =
          CKR_SIGNATURE_LEN_RANGE)) := by
  constructor
  · intro fns f h1 h2 hs h3
    rw [runSignFailVerifyShort_valid fns f h1,
      signFailVerifyShortBody_ok fns f.mechanism f.data f.datalen _ _ h2 h3]
    refine ⟨by simp, ?_⟩
    by_cases hv : fns.C_Verify f.data f.datalen (fns.C_Sign f.data f.datalen).snd 4 =
        CKR_SIGNATURE_LEN_RANGE <;>
      simp [hs, hv]
  · intro fns f h1 h2 hs h3
    rw [runSignFailVerifyShortEC_valid fns f h1,
      signFailVerifyShortBody_ok fns f.mechanism f.data f.datalen _ _ h2 h3]
    refine ⟨by simp, ?_⟩
    by_cases hv : fns.C_Verify f.data f.datalen (fns.C_Sign f.data f.datalen).snd 4 =
        CKR_SIGNATURE_LEN_RANGE <;>
      simp [hs, hv]

/-- C3 (witness): the theorem applied to a concrete module and fixture. -/
theorem claim3_witness :
    (runSignFailVerifyShort okFns rsaFix).trace =
      [Call.genKeyPair rsaFix.public_attrs rsaFix.private_attrs,
       Call.signInit rsaFix.mechanism
         (okFns.genKeyPair rsaFix.public_attrs rsaFix.private_attrs).private_handle,
       Call.sign rsaFix.data rsaFix.datalen,
       Call.verifyInit rsaFix.mechanism
         (okFns.genKeyPair rsaFix.public_attrs rsaFix.private_attrs).public_handle,
       Call.verify rsaFix.data rsaFix.datalen (okFns.C_Sign rsaFix.data rsaFix.datalen).snd 4] ∧
    ((runSignFailVerifyShort okFns rsaFix).failures = 0 ↔
      okFns.C_Verify rsaFix.data rsaFix.datalen
        (okFns.C_Sign rsaFix.data rsaFix.datalen).snd 4 = CKR_SIGNATURE_LEN_RANGE) :=
  claim3_short_signature_expects_len_range.1 okFns rsaFix rfl rfl rfl rfl

/-- C4: in `SignVerifyRecover`, when the keypair is valid and all four module
calls succeed, the test performs exactly generate-keypair,
`C_SignRecoverInit`, `C_SignRecover` on 64 random bytes, `C_VerifyRecoverInit`
and `C_VerifyRecover`, and records no failure iff the recovered bytes are
exactly the original 64-byte input (`EXPECT_EQ(datalen, recovered_len)` and
`EXPECT_EQ(0, memcmp(data, recovered, datalen))`). -/
theorem claim4_sign_verify_recover_round_trip :
    ∀ (fns : TokenFns) (rm : Nat → List Byte),
      (rm 64).length = 64 →
      (fns.genKeyPair [CKA_VERIFY_RECOVER, CKA_ENCRYPT]
        [CKA_SIGN_RECOVER, CKA_DECRYPT]).valid = true →
      fns.C_SignRecoverInit ⟨CKM_RSA_PKCS⟩
        (fns.genKeyPair [CKA_VERIFY_RECOVER, CKA_ENCRYPT]
          [CKA_SIGN_RECOVER, CKA_DECRYPT]).private_handle = CKR_OK →
      (fns.C_SignRecover (rm 64) 64).fst = CKR_OK →
      fns.C_VerifyRecoverInit ⟨CKM_RSA_PKCS⟩
        (fns.genKeyPair [CKA_VERIFY_RECOVER, CKA_ENCRYPT]
          [CKA_SIGN_RECOVER, CKA_DECRYPT]).public_handle = CKR_OK →
      (fns.C_VerifyRecover (fns.C_SignRecover (rm 64) 64).snd
        (fns.C_SignRecover (rm 64) 64).snd.length).fst = CKR_OK →
      (runSignVerifyRecover fns rm).trace =
        [Call.genKeyPair [CKA_VERIFY_RECOVER, CKA_ENCRYPT] [CKA_SIGN_RECOVER, CKA_DECRYPT],
         Call.signRecoverInit ⟨CKM_RSA_PKCS⟩
           (fns.genKeyPair [CKA_VERIFY_RECOVER, CKA_ENCRYPT]
             [CKA_SIGN_RECOVER, CKA_DECRYPT]).private_handle,
         Call.signRecover (rm 64) 64,
         Call.verifyRecoverInit ⟨CKM_RSA_PKCS⟩
           (fns.genKeyPair [CKA_VERIFY_RECOVER, CKA_ENCRYPT]
             [CKA_SIGN_RECOVER, CKA_DECRYPT]).public_handle,
         Call.verifyRecover (fns.C_SignRecover (rm 64) 64).snd
           (fns.C_SignRecover (rm 64) 64).snd.length] ∧
      ((runSignVerifyRecover fns rm).failures = 0 ↔
        (fns.C_VerifyRecover (fns.C_SignRecover (rm 64) 64).snd
          (fns.C_SignRecover (rm 64) 64).snd.length).snd = rm 64) := by
  intro fns rm hrm hval h1 h2 h3 h4
  have hres : runSignVerifyRecover fns rm =
      { skipped := false
        failures :=
          (if (64 : Nat) = (fns.C_VerifyRecover (fns.C_SignRecover (rm 64) 64).snd
              (fns.C_SignRecover (rm 64) 64).snd.length).snd.length then 0 else 1) +
          (if memcmp (rm 64) (fns.C_VerifyRecover (fns.C_SignRecover (rm 64) 64).snd
              (fns.C_SignRecover (rm 64) 64).snd.length).snd 64 = 0 then 0 else 1)
        trace :=
          [Call.genKeyPair [CKA_VERIFY_RECOVER, CKA_ENCRYPT] [CKA_SIGN_RECOVER, CKA_DECRYPT],
           Call.signRecoverInit ⟨CKM_RSA_PKCS⟩
             (fns.genKeyPair [CKA_VERIFY_RECOVER, CKA_ENCRYPT]
               [CKA_SIGN_RECOVER, CKA_DECRYPT]).private_handle,
           Call.signRecover (rm 64) 64,
           Call.verifyRecoverInit ⟨CKM_RSA_PKCS⟩
             (fns.genKeyPair [CKA_VERIFY_RECOVER, CKA_ENCRYPT]
               [CKA_SIGN_RECOVER, CKA_DECRYPT]).public_handle,
           Call.verifyRecover (fns.C_SignRecover (rm 64) 64).snd
             (fns.C_SignRecover (rm 64) 64).snd.length] } := by
    simp [runSignVerifyRecover, hval, h1, h2, h3, h4, CKR_OK,
      CKR_FUNCTION_NOT_SUPPORTED, CKR_MECHANISM_INVALID]
  have htrace : (runSignVerifyRecover fns rm).trace =
      [Call.genKeyPair [CKA_VERIFY_RECOVER, CKA_ENCRYPT] [CKA_SIGN_RECOVER, CKA_DECRYPT],
       Call.signRecoverInit ⟨CKM_RSA_PKCS⟩
         (fns.genKeyPair [CKA_VERIFY_RECOVER, CKA_ENCRYPT]
           [CKA_SIGN_RECOVER, CKA_DECRYPT]).private_handle,
       Call.signRecover (rm 64) 64,
       Call.verifyRecoverInit ⟨CKM_RSA_PKCS⟩
         (fns.genKeyPair [CKA_VERIFY_RECOVER, CKA_ENCRYPT]
           [CKA_SIGN_RECOVER, CKA_DECRYPT]).public_handle,
       Call.verifyRecover (fns.C_SignRecover (rm 64) 64).snd
         (fns.C_SignRecover (rm 64) 64).snd.length] := by rw [hres]
  have hfail : (runSignVerifyRecover fns rm).failures =
      (if (64 : Nat) = (fns.C_VerifyRecover (fns.C_SignRecover (rm 64) 64).snd
          (fns.C_SignRecover (rm 64) 64).snd.length).snd.length then 0 else 1) +
      (if memcmp (rm 64) (fns.C_VerifyRecover (fns.C_SignRecover (rm 64) 64).snd
          (fns.C_SignRecover (rm 64) 64).snd.length).snd 64 = 0 then 0 else 1) := by
    rw [hres]
  refine ⟨htrace, ?_⟩
  rw [hfail]
  generalize (fns.C_VerifyRecover (fns.C_SignRecover (rm 64) 64).snd
    (fns.C_SignRecover (rm 64) 64).snd.length).snd = re
  constructor
  · intro h0
    by_cases hlen : (64 : Nat) = re.length
    · by_cases hcmp : memcmp (rm 64) re 64 = 0
      · have htake : (rm 64).take 64 = re.take 64 := by
          by_contra hne
          simp [memcmp, hne] at hcmp
        have hl := List.take_length (rm 64)
        rw [hrm] at hl
        have hr := List.take_length re
        rw [← hlen] at hr
        rw [← hr, ← htake, hl]
      · rw [if_pos hlen, if_neg hcmp] at h0
        exact absurd h0 (by decide)
    · rw [if_neg hlen] at h0
      by_cases hcmp : memcmp (rm 64) re 64 = 0
      · rw [if_pos hcmp] at h0
        exact absurd h0 (by decide)
      · rw [if_neg hcmp] at h0
        exact absurd h0 (by decide)
  · intro heq
    subst heq
    rw [if_pos hrm.symm, if_pos (by simp [memcmp])]

/-- C4 (witness): the theorem applied to a concrete module recovering the
original bytes. -/
theorem claim4_witness :
    (runSignVerifyRecover okFns rmZero).trace =
      [Call.genKeyPair [CKA_VERIFY_RECOVER, CKA_ENCRYPT] [CKA_SIGN_RECOVER, CKA_DECRYPT],
       Call.signRecoverInit ⟨CKM_RSA_PKCS⟩
         (okFns.genKeyPair [CKA_VERIFY_RECOVER, CKA_ENCRYPT]
           [CKA_SIGN_RECOVER, CKA_DECRYPT]).private_handle,
       Call.signRecover (rmZero 64) 64,
       Call.verifyRecoverInit ⟨CKM_RSA_PKCS⟩
         (okFns.genKeyPair [CKA_VERIFY_RECOVER, CKA_ENCRYPT]
           [CKA_SIGN_RECOVER, CKA_DECRYPT]).public_handle,
       Call.verifyRecover (okFns.C_SignRecover (rmZero 64) 64).snd
         (okFns.C_SignRecover (rmZero 64) 64).snd.length] ∧
    ((runSignVerifyRecover okFns rmZero).failures = 0 ↔
      (okFns.C_VerifyRecover (okFns.C_SignRecover (rmZero 64) 64).snd
        (okFns.C_SignRecover (rmZero 64) 64).snd.length).snd = rmZero 64) :=
  claim4_sign_verify_recover_round_trip okFns rmZero (by simp [rmZero]) rfl rfl rfl rfl rfl

/-- C5 (counterexample): as stated the claim is false: `C_SignRecoverInit`
returning `CKR_FUNCTION_NOT_SUPPORTED` — a non-OK, non-`CKR_MECHANISM_INVALID`
status — is not an assertion failure: `SignVerifyRecover` reports skipped and
records no failure. -/
theorem claim5_counterexample :
    cexNotSupportedFns.C_SignRecoverInit ⟨CKM_RSA_PKCS⟩
      (cexNotSupportedFns.genKeyPair [CKA_VERIFY_RECOVER, CKA_ENCRYPT]
        [CKA_SIGN_RECOVER, CKA_DECRYPT]).private_handle ≠ CKR_OK ∧
    cexNotSupportedFns.C_SignRecoverInit ⟨CKM_RSA_PKCS⟩
      (cexNotSupportedFns.genKeyPair [CKA_VERIFY_RECOVER, CKA_ENCRYPT]
        [CKA_SIGN_RECOVER, CKA_DECRYPT]).private_handle ≠ CKR_MECHANISM_INVALID ∧
    (runSignVerifyRecover cexNotSupportedFns rmZero).failures = 0 ∧
    (runSignVerifyRecover cexNotSupportedFns rmZero).skipped = true := by
  decide

/-- C5 (amended): with a valid keypair, every test whose init call returns
`CKR_MECHANISM_INVALID` is reported skipped with no failure and makes no
further module call; any other non-OK init status is a single assertion
failure ending the test — except that in `SignVerifyRecover`,
`CKR_FUNCTION_NOT_SUPPORTED` is likewise reported as skipped with no
failure. -/
theorem claim5_mech_invalid_skips :
    (∀ (fns : TokenFns) (f : SignTestFixture),
      (fns.genKeyPair f.public_attrs f.private_attrs).valid = true →
      (fns.C_SignInit f.mechanism
          (fns.genKeyPair f.public_attrs f.private_attrs).private_handle =
          CKR_MECHANISM_INVALID →
        runSignVerify fns f =
          ⟨true, 0, [Call.genKeyPair f.public_attrs f.private_attrs,
            Call.signInit f.mechanism
              (fns.genKeyPair f.public_attrs f.private_attrs).private_handle]⟩ ∧
        runSignFailVerifyWrong fns f =
          ⟨true, 0, [Call.genKeyPair f.public_attrs f.private_attrs,
            Call.signInit f.mechanism
              (fns.genKeyPair f.public_attrs f.private_attrs).private_handle]⟩ ∧
        runSignFailVerifyShort fns f =
          ⟨true, 0, [Call.genKeyPair f.public_attrs f.private_attrs,
            Call.signInit f.mechanism
              (fns.genKeyPair f.public_attrs f.private_attrs).private_handle]⟩) ∧
      (fns.C_SignInit f.mechanism
          (fns.genKeyPair f.public_attrs f.private_attrs).private_handle ≠
          CKR_MECHANISM_INVALID →
       fns.C_SignInit f.mechanism
          (fns.genKeyPair f.public_attrs f.private_attrs).private_handle ≠ CKR_OK →
        runSignVerify fns f =
          ⟨false, 1, [Call.genKeyPair f.public_attrs f.private_attrs,
            Call.signInit f.mechanism
              (fns.genKeyPair f.public_attrs f.private_attrs).private_handle]⟩ ∧
        runSignFailVerifyWrong fns f =
          ⟨false, 1, [Call.genKeyPair f.public_attrs f.private_attrs,
            Call.signInit f.mechanism
              (fns.genKeyPair f.public_attrs f.private_attrs).private_handle]⟩ ∧
        runSignFailVerifyShort fns f =
          ⟨false, 1, [Call.genKeyPair f.public_attrs f.private_attrs,
            Call.signInit f.mechanism
              (fns.genKeyPair f.public_attrs f.private_attrs).private_handle]⟩)) ∧
    (∀ (fns : TokenFns) (f : SignTestECFixture),
      (fns.genKeyPairEC f.ec_params.der f.public_attrs f.private_attrs).valid = true →
      (fns.C_SignInit f.mechanism
          (fns.genKeyPairEC f.ec_params.der f.public_attrs f.private_attrs).private_handle =
          CKR_MECHANISM_INVALID →
        runSignVerifyEC fns f =
          ⟨true, 0, [Call.genKeyPairEC f.ec_params.der f.public_attrs f.private_attrs,
            Call.signInit f.mechanism
              (fns.genKeyPairEC f.ec_params.der f.public_attrs f.private_attrs).private_handle]⟩ ∧
        runSignFailVerifyWrongEC fns f =
          ⟨true, 0, [Call.genKeyPairEC f.ec_params.der f.public_attrs f.private_attrs,
            Call.signInit f.mechanism
              (fns.genKeyPairEC f.ec_params.der f.public_attrs f.private_attrs).private_handle]⟩ ∧
        runSignFailVerifyShortEC fns f =
          ⟨true, 0, [Call.genKeyPairEC f.ec_params.der f.public_attrs f.private_attrs,
            Call.signInit f.mechanism
              (fns.genKeyPairEC f.ec_params.der f.public_attrs f.private_attrs).private_handle]⟩) ∧
      (fns.C_SignInit f.mechanism
          (fns.genKeyPairEC f.ec_params.der f.public_attrs f.private_attrs).private_handle ≠
          CKR_MECHANISM_INVALID →
       fns.C_SignInit f.mechanism
          (fns.genKeyPairEC f.ec_params.der f.public_attrs f.private_attrs).private_handle ≠
          CKR_OK →
        runSignVerifyEC fns f =
          ⟨false, 1, [Call.genKeyPairEC f.ec_params.der f.public_attrs f.private_attrs,
            Call.signInit f.mechanism
              (fns.genKeyPairEC f.ec_params.der f.public_attrs f.private_attrs).private_handle]⟩ ∧
        runSignFailVerifyWrongEC fns f =
          ⟨false, 1, [Call.genKeyPairEC f.ec_params.der f.public_attrs f.private_attrs,
            Call.signInit f.mechanism
              (fns.genKeyPairEC f.ec_params.der f.public_attrs f.private_attrs).private_handle]⟩ ∧
        runSignFailVerifyShortEC fns f =
          ⟨false, 1, [Call.genKeyPairEC f.ec_params.der f.public_attrs f.private_attrs,
            Call.signInit f.mechanism
              (fns.genKeyPairEC f.ec_params.der f.public_attrs f.private_attrs).private_handle]⟩)) ∧
    (∀ (fns : TokenFns) (rm : Nat → List Byte),
      (fns.genKeyPair [CKA_VERIFY_RECOVER, CKA_ENCRYPT]
        [CKA_SIGN_RECOVER, CKA_DECRYPT]).valid = true →
      (fns.C_SignRecoverInit ⟨CKM_RSA_PKCS⟩
          (fns.genKeyPair [CKA_VERIFY_RECOVER, CKA_ENCRYPT]
            [CKA_SIGN_RECOVER, CKA_DECRYPT]).private_handle = CKR_MECHANISM_INVALID →
        runSignVerifyRecover fns rm =
          ⟨true, 0, [Call.genKeyPair [CKA_VERIFY_RECOVER, CKA_ENCRYPT]
              [CKA_SIGN_RECOVER, CKA_DECRYPT],
            Call.signRecoverInit ⟨CKM_RSA_PKCS⟩
              (fns.genKeyPair [CKA_VERIFY_RECOVER, CKA_ENCRYPT]
                [CKA_SIGN_RECOVER, CKA_DECRYPT]).private_handle]⟩) ∧
      (fns.C_SignRecoverInit ⟨CKM_RSA_PKCS⟩
          (fns.genKeyPair [CKA_VERIFY_RECOVER, CKA_ENCRYPT]
            [CKA_SIGN_RECOVER, CKA_DECRYPT]).private_handle = CKR_FUNCTION_NOT_SUPPORTED →
        runSignVerifyRecover fns rm =
          ⟨true, 0, [Call.genKeyPair [CKA_VERIFY_RECOVER, CKA_ENCRYPT]
              [CKA_SIGN_RECOVER, CKA_DECRYPT],
            Call.signRecoverInit ⟨CKM_RSA_PKCS⟩
              (fns.genKeyPair [CKA_VERIFY_RECOVER, CKA_ENCRYPT]
                [CKA_SIGN_RECOVER, CKA_DECRYPT]).private_handle]⟩) ∧
      (fns.C_SignRecoverInit ⟨CKM_RSA_PKCS⟩
          (fns.genKeyPair [CKA_VERIFY_RECOVER, CKA_ENCRYPT]
            [CKA_SIGN_RECOVER, CKA_DECRYPT]).private_handle ≠ CKR_MECHANISM_INVALID →
       fns.C_SignRecoverInit ⟨CKM_RSA_PKCS⟩
          (fns.genKeyPair [CKA_VERIFY_RECOVER, CKA_ENCRYPT]
            [CKA_SIGN_RECOVER, CKA_DECRYPT]).private_handle ≠ CKR_FUNCTION_NOT_SUPPORTED →
       fns.C_SignRecoverInit ⟨CKM_RSA_PKCS⟩
          (fns.genKeyPair [CKA_VERIFY_RECOVER, CKA_ENCRYPT]
            [CKA_SIGN_RECOVER, CKA_DECRYPT]).private_handle ≠ CKR_OK →
        runSignVerifyRecover fns rm =
          ⟨false, 1, [Call.genKeyPair [CKA_VERIFY_RECOVER, CKA_ENCRYPT]
              [CKA_SIGN_RECOVER, CKA_DECRYPT],
            Call.signRecoverInit ⟨CKM_RSA_PKCS⟩
              (fns.genKeyPair [CKA_VERIFY_RECOVER, CKA_ENCRYPT]
                [CKA_SIGN_RECOVER, CKA_DECRYPT]).private_handle]⟩)) := by
  refine ⟨?_, ?_, ?_⟩
  · intro fns f hval
    constructor
    · intro hmi
      refine ⟨?_, ?_, ?_⟩
      · rw [runSignVerify_valid fns f hval,
          signVerifyBody_mech_invalid fns f.mechanism f.data f.datalen _ _ hmi]
        rfl
      · rw [runSignFailVerifyWrong_valid fns f hval,
          signFailVerifyWrongBody_mech_invalid fns f.mechanism f.data f.datalen _ _ hmi]
        rfl
      · rw [runSignFailVerifyShort_valid fns f hval,
          signFailVerifyShortBody_mech_invalid fns f.mechanism f.data f.datalen _ _ hmi]
        rfl
    · intro hn1 hn2
      refine ⟨?_, ?_, ?_⟩
      · rw [runSignVerify_valid fns f hval,
          signVerifyBody_init_fails fns f.mechanism f.data f.datalen _ _ hn1 hn2]
        rfl
      · rw [runSignFailVerifyWrong_valid fns f hval,
          signFailVerifyWrongBody_init_fails fns f.mechanism f.data f.datalen _ _ hn1 hn2]
        rfl
      · rw [runSignFailVerifyShort_valid fns f hval,
          signFailVerifyShortBody_init_fails fns f.mechanism f.data f.datalen _ _ hn1 hn2]
        rfl
  · intro fns f hval
    constructor
    · intro hmi
      refine ⟨?_, ?_, ?_⟩
      · rw [runSignVerifyEC_valid fns f hval,
          signVerifyBody_mech_invalid fns f.mechanism f.data f.datalen _ _ hmi]
        rfl
      · rw [runSignFailVerifyWrongEC_valid fns f hval,
          signFailVerifyWrongBody_mech_invalid fns f.mechanism f.data f.datalen _ _ hmi]
        rfl
      · rw [runSignFailVerifyShortEC_valid fns f hval,
          signFailVerifyShortBody_mech_invalid fns f.mechanism f.data f.datalen _ _ hmi]
        rfl
    · intro hn1 hn2
      refine ⟨?_, ?_, ?_⟩
      · rw [runSignVerifyEC_valid fns f hval,
          signVerifyBody_init_fails fns f.mechanism f.data f.datalen _ _ hn1 hn2]
        rfl
      · rw [runSignFailVerifyWrongEC_valid fns f hval,
          signFailVerifyWrongBody_init_fails fns f.mechanism f.data f.datalen _ _ hn1 hn2]
        rfl
      · rw [runSignFailVerifyShortEC_valid fns f hval,
          signFailVerifyShortBody_init_fails fns f.mechanism f.data f.datalen _ _ hn1 hn2]
        rfl
  · intro fns rm hval
    refine ⟨?_, ?_, ?_⟩
    · intro hmi
      simp [runSignVerifyRecover, hval, hmi, CKR_MECHANISM_INVALID,
        CKR_FUNCTION_NOT_SUPPORTED]
    · intro hfns
      simp [runSignVerifyRecover, hval, hfns, CKR_MECHANISM_INVALID,
        CKR_FUNCTION_NOT_SUPPORTED]
    · intro hn1 hn2 hn3
      have hn1a : ¬ fns.C_SignRecoverInit ⟨CKM_RSA_PKCS⟩
          (fns.genKeyPair [CKA_VERIFY_RECOVER, CKA_ENCRYPT]
            [CKA_SIGN_RECOVER, CKA_DECRYPT]).private_handle = 0x70 := by
        simpa [CKR_MECHANISM_INVALID] using hn1
      have hn2a : ¬ fns.C_SignRecoverInit ⟨CKM_RSA_PKCS⟩
          (fns.genKeyPair [CKA_VERIFY_RECOVER, CKA_ENCRYPT]
            [CKA_SIGN_RECOVER, CKA_DECRYPT]).private_handle = 0x54 := by
        simpa [CKR_FUNCTION_NOT_SUPPORTED] using hn2
      have hn3a : ¬ fns.C_SignRecoverInit ⟨CKM_RSA_PKCS⟩
          (fns.genKeyPair [CKA_VERIFY_RECOVER, CKA_ENCRYPT]
            [CKA_SIGN_RECOVER, CKA_DECRYPT]).private_handle = 0 := by
        simpa [CKR_OK] using hn3
      simp [runSignVerifyRecover, hval, hn1a, hn2a, hn3a, CKR_MECHANISM_INVALID,
        CKR_FUNCTION_NOT_SUPPORTED, CKR_OK]

/-- C5 (witness): the amended theorem applied to a module reporting
`CKR_MECHANISM_INVALID` from `C_SignInit`. -/
theorem claim5_witness :
    runSignVerify mechInvalidFns rsaFix =
      ⟨true, 0, [Call.genKeyPair rsaFix.public_attrs rsaFix.private_attrs,
        Call.signInit rsaFix.mechanism
          (mechInvalidFns.genKeyPair rsaFix.public_attrs rsaFix.private_attrs).private_handle]⟩ ∧
    runSignFailVerifyWrong mechInvalidFns rsaFix =
      ⟨true, 0, [Call.genKeyPair rsaFix.public_attrs rsaFix.private_attrs,
        Call.signInit rsaFix.mechanism
          (mechInvalidFns.genKeyPair rsaFix.public_attrs rsaFix.private_attrs).private_handle]⟩ ∧
    runSignFailVerifyShort mechInvalidFns rsaFix =
      ⟨true, 0, [Call.genKeyPair rsaFix.public_attrs rsaFix.private_attrs,
        Call.signInit rsaFix.mechanism
          (mechInvalidFns.genKeyPair rsaFix.public_attrs rsaFix.private_attrs).private_handle]⟩ :=
  (claim5_mech_invalid_skips.1 mechInvalidFns rsaFix rfl).1 rfl

/-- C6 (evaluation at the failing input): with a module whose keypair
generation fails and whose `C_SignRecoverInit` returns `CKR_GENERAL_ERROR`,
`SignVerifyRecover` reports skipped but still calls `C_SignRecoverInit` and
records an assertion failure: the missing `return` after `TEST_SKIPPED` at
lines 164-166 of `sign.cc` lets execution continue. -/
theorem claim6_keypair_invalid_still_fails :
    (badKeyFns.genKeyPair [CKA_VERIFY_RECOVER, CKA_ENCRYPT]
      [CKA_SIGN_RECOVER, CKA_DECRYPT]).valid = false ∧
    (runSignVerifyRecover badKeyFns rmZero).skipped = true ∧
    (runSignVerifyRecover badKeyFns rmZero).failures = 1 ∧
    (runSignVerifyRecover badKeyFns rmZero).trace =
      [Call.genKeyPair [CKA_VERIFY_RECOVER, CKA_ENCRYPT] [CKA_SIGN_RECOVER, CKA_DECRYPT],
       Call.signRecoverInit ⟨CKM_RSA_PKCS⟩ 0] := by
  decide

/-- C7 (counterexample): for the `CKM_ECDSA` fixture the data handed to
`C_Sign` is not the raw random message: it is the hex-decoded output of the
digest function applied in the fixture constructor (in-repository code), so
it changes when the digest function changes. -/
theorem claim7_counterexample :
    (SignTestEC.setUp ecInfo ecParamsX 7 rmZero calcAB).data ≠
      rmZero (7 % ecInfo.max_data) ∧
    (SignTestEC.setUp ecInfo ecParamsX 7 rmZero calcAB).data ≠
      (SignTestEC.setUp ecInfo ecParamsX 7 rmZero calcCD).data ∧
    (SignTestEC.setUp ecInfo ecParamsX 7 rmZero calcAB).data =
      List.replicate 64 171 := by
  decide

/-- C7 (amended): the RSA `SignTest` fixtures hand the raw random bytes to
`C_Sign` untransformed, but the `SignTestEC` fixture for `CKM_ECDSA` applies
the bundled SHA-512 (`sha512.hh`, in-repository) to a random message inside
the constructor and hands the hex-decoded digest bytes to `C_Sign`. -/
theorem claim7_data_construction :
    (∀ (info : SignatureInfo) (r : Nat) (rm : Nat → List Byte),
      (SignTest.setUp info r rm).data = rm ((SignTest.setUp info r rm).datalen)) ∧
    (∀ (info : SignatureInfo) (ecp : EccParams) (r : Nat) (rm : Nat → List Byte)
        (sha512calc : List Byte → String),
      info.alg = CKM_ECDSA →
      (rm 64).length = 64 →
      ∀ i, i < 64 →
        (SignTestEC.setUp info ecp r rm sha512calc).data.getD i 0 =
          strtoul16buf2 (charAt (sha512calc (rm (r % info.max_data))) (2 * i))
            (charAt (sha512calc (rm (r % info.max_data))) (2 * i + 1)) % 256) := by
  constructor
  · intro info r rm
    rfl
  · intro info ecp r rm sha512calc halg hrm i hi
    rw [(SignTestEC.setUp_ecdsa info ecp r rm sha512calc halg).2]
    exact hexAssignLoop_getD _ _ 64 i hi (by rw [hrm])

/-- C7 (witness): the amended theorem applied to a concrete fixture. -/
theorem claim7_witness :
    (SignTestEC.setUp ecInfo ecParamsX 7 rmZero calcAB).data.getD 0 0 =
      strtoul16buf2 (charAt (calcAB (rmZero (7 % ecInfo.max_data))) (2 * 0))
        (charAt (calcAB (rmZero (7 % ecInfo.max_data))) (2 * 0 + 1)) % 256 :=
  claim7_data_construction.2 ecInfo ecParamsX 7 rmZero calcAB rfl (by decide) 0
    (by decide)

/-- C8: the `SignTest` constructor computes `datalen_` as
`std::rand() % info_.max_data`, which is strictly below the per-mechanism
`max_data` bound (and trivially at least 0, being a `Nat`). -/
theorem claim8_datalen_bounded :
    ∀ (info : SignatureInfo) (r : Nat) (rm : Nat → List Byte),
      0 < info.max_data →
      (SignTest.setUp info r rm).datalen = r % info.max_data ∧
      (SignTest.setUp info r rm).datalen < info.max_data := by
  intro info r rm h
  exact ⟨rfl, Nat.mod_lt r h⟩

/-- C8 (witness): the theorem applied to a concrete mechanism description. -/
theorem claim8_witness :
    0 < rsaInfo.max_data ∧ (SignTest.setUp rsaInfo 7 rmZero).datalen < rsaInfo.max_data :=
  ⟨by decide, (claim8_datalen_bounded rsaInfo 7 rmZero (by decide)).2⟩

/-- C9: for a `SignTestEC` fixture with mechanism `CKM_ECDSA`, the signed
data is exactly 64 bytes, byte `i` is the value of the two hexadecimal
digits at positions `2i` and `2i+1` of the digest string produced from the
freshly generated random message, and every `C_Sign` call each EC test makes
passes exactly that 64-byte buffer (never the random message). -/
theorem claim9_ecdsa_data_is_digest :
    ∀ (info : SignatureInfo) (ecp : EccParams) (r : Nat) (rm : Nat → List Byte)
      (sha512calc : List Byte → String) (fns : TokenFns),
      info.alg = CKM_ECDSA →
      (rm 64).length = 64 →
      (SignTestEC.setUp info ecp r rm sha512calc).datalen = 64 ∧
      (SignTestEC.setUp info ecp r rm sha512calc).data.length = 64 ∧
      (∀ i d0 d1, i < 64 →
        hexDigitVal (charAt (sha512calc (rm (r % info.max_data))) (2 * i)) = some d0 →
        hexDigitVal (charAt (sha512calc (rm (r % info.max_data))) (2 * i + 1)) = some d1 →
        (SignTestEC.setUp info ecp r rm sha512calc).data.getD i 0 = 16 * d0 + d1) ∧
      ((runSignVerifyEC fns (SignTestEC.setUp info ecp r rm sha512calc)).trace.all
          (Call.isSignOn (SignTestEC.setUp info ecp r rm sha512calc).data 64) = true ∧
        (runSignFailVerifyWrongEC fns (SignTestEC.setUp info ecp r rm sha512calc)).trace.all
          (Call.isSignOn (SignTestEC.setUp info ecp r rm sha512calc).data 64) = true ∧
        (runSignFailVerifyShortEC fns (SignTestEC.setUp info ecp r rm sha512calc)).trace.all
          (Call.isSignOn (SignTestEC.setUp info ecp r rm sha512calc).data 64) = true) := by
  intro info ecp r rm sha512calc fns halg hrm
  have hdl := (SignTestEC.setUp_ecdsa info ecp r rm sha512calc halg).1
  have hdata := (SignTestEC.setUp_ecdsa info ecp r rm sha512calc halg).2
  refine ⟨hdl, ?_, ?_, ?_, ?_, ?_⟩
  · rw [hdata, hexAssignLoop_length, hrm]
  · intro i d0 d1 hi hd0 hd1
    rw [hdata, hexAssignLoop_getD _ _ 64 i hi (by rw [hrm])]
    unfold strtoul16buf2
    rw [hd0, hd1]
    have hb0 := hexDigitVal_lt16 _ _ hd0
    have hb1 := hexDigitVal_lt16 _ _ hd1
    show (16 * d0 + d1) % 256 = 16 * d0 + d1
    exact Nat.mod_eq_of_lt (by omega)
  · have h1 := runSignVerifyEC_all_signOn fns (SignTestEC.setUp info ecp r rm sha512calc)
    rw [hdl] at h1
    exact h1
  · have h1 := runSignFailVerifyWrongEC_all_signOn fns
      (SignTestEC.setUp info ecp r rm sha512calc)
    rw [hdl] at h1
    exact h1
  · have h1 := runSignFailVerifyShortEC_all_signOn fns
      (SignTestEC.setUp info ecp r rm sha512calc)
    rw [hdl] at h1
    exact h1

/-- C9 (witness): the theorem applied to a concrete fixture: byte 0 of the
data is the value 171 of the hex digits `a`, `b`. -/
theorem claim9_witness :
    (SignTestEC.setUp ecInfo ecParamsX 7 rmZero calcAB).datalen = 64 ∧
    (SignTestEC.setUp ecInfo ecParamsX 7 rmZero calcAB).data.getD 0 0 = 16 * 10 + 11 :=
  ⟨(claim9_ecdsa_data_is_digest ecInfo ecParamsX 7 rmZero calcAB okFns rfl (by decide)).1,
   (claim9_ecdsa_data_is_digest ecInfo ecParamsX 7 rmZero calcAB okFns rfl
      (by decide)).2.2.1 0 10 11 (by decide) (by decide) (by decide)⟩

/-- C10: every `SignTest`/`SignTestEC` fixture requests key-usage attribute
lists exactly `{CKA_VERIFY}` (public) and `{CKA_SIGN}` (private);
`SignVerifyRecover` alone generates its keypair with
`{CKA_VERIFY_RECOVER, CKA_ENCRYPT}` / `{CKA_SIGN_RECOVER, CKA_DECRYPT}`; and
all tests run in the read-only user session of `ROUserSessionTest`. -/
theorem claim10_key_usage_and_session :
    (∀ (info : SignatureInfo) (r : Nat) (rm : Nat → List Byte),
      (SignTest.setUp info r rm).public_attrs = [CKA_VERIFY] ∧
      (SignTest.setUp info r rm).private_attrs = [CKA_SIGN] ∧
      (SignTest.setUp info r rm).session = SessionKind.readOnlyUser) ∧
    (∀ (info : SignatureInfo) (ecp : EccParams) (r : Nat) (rm : Nat → List Byte)
        (sha512calc : List Byte → String),
      (SignTestEC.setUp info ecp r rm sha512calc).public_attrs = [CKA_VERIFY] ∧
      (SignTestEC.setUp info ecp r rm sha512calc).private_attrs = [CKA_SIGN] ∧
      (SignTestEC.setUp info ecp r rm sha512calc).session = SessionKind.readOnlyUser) ∧
    (∀ (fns : TokenFns) (rm : Nat → List Byte),
      (runSignVerifyRecover fns rm).trace.head? =
        some (Call.genKeyPair [CKA_VERIFY_RECOVER, CKA_ENCRYPT]
          [CKA_SIGN_RECOVER, CKA_DECRYPT])) ∧
    ROUserSessionTest.session = SessionKind.readOnlyUser := by
  refine ⟨?_, ?_, ?_, rfl⟩
  · intro info r rm
    exact ⟨rfl, rfl, rfl⟩
  · intro info ecp r rm sha512calc
    have h := SignTestEC.setUp_fixed_fields info ecp r rm sha512calc
    exact ⟨h.1, h.2.1, h.2.2.1⟩
  · intro fns rm
    simp only [runSignVerifyRecover]
    repeat' split
    all_goals rfl

end Pkcs11Test
